import Mathlib

/-!
# Verification of the authentication/session lifecycle of a backend service

Shallow embedding of `src/controllers/user.controller.js` (register, login,
logout, refresh, avatar/cover-image update) together with the collaborators it
uses.  The user model (`user.models.js`), the password hasher and the token
issuer are not present in the repository's sources; they are modelled from the
specification where noted.  Stateful database code is embedded as explicit
state passing: every controller takes the credential store (a list of user
records) and returns the store after the call next to the controller's result.
JavaScript `undefined` is modelled by `Option`.
-/

namespace Backend

deriving instance DecidableEq for Except

/-- JS `String.prototype.toLowerCase` on the basic latin range, embedded at
the character level so that it evaluates by kernel reduction. -/
def toLowerCase (s : String) : String :=
  ⟨s.data.map Char.toLower⟩

/-- Signing secrets for the two token kinds (environment configuration;
distinct values, per the spec's Token Issuer contract). -/
def ACCESS_TOKEN_SECRET : String := "access-secret"

def REFRESH_TOKEN_SECRET : String := "refresh-secret"

/-- Access-token lifetime (short), in abstract time units. -/
def ACCESS_TOKEN_EXPIRY : Nat := 15

/-- Refresh-token lifetime (long), in abstract time units. -/
def REFRESH_TOKEN_EXPIRY : Nat := 600

/-- A signed token: payload `{sub, iat, exp}` plus the secret it was signed
with (standing in for the signature). -/
structure Token where
  sub : String
  iat : Nat
  exp : Nat
  sig : String
deriving DecidableEq, Repr

/-- Modelled from the spec: `user.models.js` is absent from the sources.
`issueAccessToken(userId)` signs `{sub: userId, iat, exp}` with the access
secret and a short TTL. -/
def generateAccessToken (userId : String) (now : Nat) : Token :=
  { sub := userId, iat := now, exp := now + ACCESS_TOKEN_EXPIRY,
    sig := ACCESS_TOKEN_SECRET }

/-- Modelled from the spec: `user.models.js` is absent from the sources.
`issueRefreshToken(userId)` signs with the distinct refresh secret and a
longer TTL. -/
def generateRefreshToken (userId : String) (now : Nat) : Token :=
  { sub := userId, iat := now, exp := now + REFRESH_TOKEN_EXPIRY,
    sig := REFRESH_TOKEN_SECRET }

/-- The two failures `jwt.verify` raises: `TokenExpiredError` with message
"jwt expired" and `JsonWebTokenError` with message "invalid signature". -/
inductive JwtError where
  | expired
  | invalidSignature
deriving DecidableEq, Repr

def JwtError.message : JwtError → String
  | .expired => "jwt expired"
  | .invalidSignature => "invalid signature"

/-- `jwt.verify(token, secret)`: checks the signature, then the expiry
(`exp` is compared against the current time), and returns the decoded
payload on success. -/
def jwtVerify (t : Token) (secret : String) (now : Nat) :
    Except JwtError Token :=
  if t.sig ≠ secret then .error .invalidSignature
  else if t.exp ≤ now then .error .expired
  else .ok t

/-- Modelled from the spec: the password hasher (`user.models.js` /
Password Verifier) is absent from the sources; a one-way transform whose
digests are only comparable through `verifyPassword`. -/
def hashPassword (plaintext : String) : String :=
  "h#" ++ plaintext

/-- Modelled from the spec: `verify(plaintext, digest)` is true iff the
plaintext re-hashes to the digest; it never throws on mismatch.  The source
calls it as `user.isPasswordCorrect(password)` where `password` may be the
JS value `undefined` (here `none`), which cannot verify. -/
def isPasswordCorrect (plaintext : Option String) (digest : String) : Bool :=
  match plaintext with
  | none => false
  | some p => hashPassword p == digest

/-- A persisted user record (the Credential Store document).  The
`refreshToken` field is `Option` because a user may have no stored refresh
token (new users, or a field never written). -/
structure UserRec where
  id : String
  username : String
  email : String
  fullname : String
  password : String
  refreshToken : Option Token
  avatar : String
  coverImage : String
deriving DecidableEq, Repr

/-- The Credential Store: the collection of user documents. -/
abbrev DB := List UserRec

/-- `User.findById(id)`. -/
def findById (db : DB) (userId : String) : Option UserRec :=
  db.find? (fun u => u.id == userId)

/-- One branch of the store's `findOne({$or: [{username}, {email}]})`
filter.  Mongoose strips `undefined` values from query filters just as it
does from updates, so a branch whose identifier is `undefined` (`none`)
becomes the empty filter and matches every document.  For a present
username the match is case-insensitive — modelled from the spec, since the
schema of `user.models.js` is absent from the sources and the spec's data
model makes `username` unique case-insensitively; a present email matches
exactly. -/
def matchesUsernameOrEmail (username email : Option String)
    (u : UserRec) : Bool :=
  (match username with
   | none => true
   | some un => toLowerCase u.username == toLowerCase un)
  || (match email with
      | none => true
      | some e => u.email == e)

/-- `User.findOne({$or: [{username}, {email}]})`. -/
def findOneByUsernameOrEmail (db : DB) (username email : Option String) :
    Option UserRec :=
  db.find? (matchesUsernameOrEmail username email)

/-- Update the single document with the given id (atomic per-document write
of the store). -/
def updateUser (db : DB) (userId : String) (f : UserRec → UserRec) : DB :=
  db.map (fun u => if u.id == userId then f u else u)

/-- The `ApiError` class: an HTTP-ish status code and a message (the source
spells the field `massage`). -/
structure ApiError where
  statusCode : Nat
  massage : String
deriving DecidableEq, Repr

/-- A serialized user document as it appears in a JSON response: an ordered
list of field-name/value pairs.  An unset (`undefined`) `refreshToken` field
is absent from the document, as in a Mongo document. -/
abbrev Doc := List (String × String)

/-- The compact serialization of a token (its JWT string). -/
def Token.serialize (t : Token) : String :=
  t.sub ++ "." ++ toString t.iat ++ "." ++ toString t.exp ++ "." ++ t.sig

/-- The full user document, with every stored field. -/
def UserRec.toDoc (u : UserRec) : Doc :=
  [("_id", u.id), ("username", u.username), ("email", u.email),
   ("fullname", u.fullname), ("avatar", u.avatar),
   ("coverImage", u.coverImage), ("password", u.password)]
  ++ (match u.refreshToken with
      | none => []
      | some t => [("refreshToken", t.serialize)])

/-- `.select("-password -refreshToken")`: drop the named fields from the
returned document. -/
def selectWithout (doc : Doc) (hidden : List String) : Doc :=
  doc.filter (fun kv => !(hidden.contains kv.1))

/-- The sanitized projection used by register and login. -/
def UserRec.toSanitizedDoc (u : UserRec) : Doc :=
  selectWithout u.toDoc ["password", "refreshToken"]

/-- `generateAccessAndRefreshToken(userId)`: fetch the user, generate both
tokens, store the refresh token on the user record and save.  Any error
(here: the user not being found, so that calling a method on it throws) is
wrapped into the 500 `ApiError` of the source's catch block. -/
def generateAccessAndRefreshToken (db : DB) (userId : String) (now : Nat) :
    DB × Except ApiError (Token × Token) :=
  match findById db userId with
  | none =>
      (db, .error ⟨500,
        "Something went wrong while generating refresh token and access token"⟩)
  | some _ =>
      let accessToken := generateAccessToken userId now
      let refreshToken := generateRefreshToken userId now
      (updateUser db userId (fun u => { u with refreshToken := some refreshToken }),
       .ok (accessToken, refreshToken))

/-- The response of `refreshAccessToken`: the JSON body's two token fields
and the two cookies it sets.  `none` models the JS value `undefined`
(dropped from the JSON body, stringified in a cookie). -/
structure RefreshRes where
  accessToken : Option Token
  refreshToken : Option Token
  cookieAccessToken : Option Token
  cookieRefreshToken : Option Token
deriving DecidableEq, Repr

/-- `refreshAccessToken`: take the incoming refresh token (cookie or body),
verify it against the refresh secret, look the subject up, require exact
equality with the stored `refreshToken`, then rotate via
`generateAccessAndRefreshToken`.  Every error raised inside the `try` block
is re-thrown by the catch block as `ApiError(401, error.message)`.  The
success path destructures `{accessToken, newRefreshToken}` from a function
that returns `{accessToken, refreshToken}`, so `newRefreshToken` is
`undefined` (`none`) in the body and the cookie. -/
def refreshAccessToken (db : DB) (incoming : Option Token) (now : Nat) :
    DB × Except ApiError RefreshRes :=
  match incoming with
  | none => (db, .error ⟨401, "Unauthorized request"⟩)
  | some tok =>
      match jwtVerify tok REFRESH_TOKEN_SECRET now with
      | .error e => (db, .error ⟨401, e.message⟩)
      | .ok decoded =>
          match findById db decoded.sub with
          | none => (db, .error ⟨401, "Invalid refresh token"⟩)
          | some user =>
              if user.refreshToken ≠ some tok then
                (db, .error ⟨401, "Refresh token is expired or does not match"⟩)
              else
                match generateAccessAndRefreshToken db user.id now with
                | (db1, .error e) => (db1, .error ⟨401, e.massage⟩)
                | (db1, .ok (accessToken, _newRefreshToken)) =>
                    (db1, .ok { accessToken := some accessToken,
                                refreshToken := none,
                                cookieAccessToken := some accessToken,
                                cookieRefreshToken := none })

/-- JS `String.prototype.trim`: drop whitespace from both ends, embedded
at the character level so that it evaluates by kernel reduction. -/
def trimString (s : String) : String :=
  ⟨((s.data.dropWhile Char.isWhitespace).reverse.dropWhile
      Char.isWhitespace).reverse⟩

/-- The source's emptiness test on one request field:
`field?.trim() === ""`.  A missing field (JS `undefined`, here `none`)
makes the optional chain evaluate to `undefined`, which is not `""`, so the
test is `false` for absent fields. -/
def trimIsEmptyString (field : Option String) : Bool :=
  (field.map trimString) == some ""

/-- `registerUser`: validate the four body fields, reject duplicates found
by username-or-email, upload media (the Media Host collaborator; its
resulting URLs are passed in, the avatar upload assumed successful), create
the user with a lowercased username, and answer with the created document
minus `password` and `refreshToken`.  When the fields pass validation but
one is absent, the later `username.toLowerCase()` or the store's required
fields throw, which the error middleware surfaces as a 500. -/
def registerUser (db : DB)
    (fullname email username password : Option String)
    (avatarUrl : String) (coverImageUrl : Option String)
    (nextId : String) : DB × Except ApiError Doc :=
  if [fullname, email, username, password].any trimIsEmptyString then
    (db, .error ⟨400, "All fields are required"⟩)
  else
    match findOneByUsernameOrEmail db username email with
    | some _ => (db, .error ⟨409, "User already exists"⟩)
    | none =>
        match username with
        | none =>
            (db, .error ⟨500, "Cannot read properties of undefined"⟩)
        | some un =>
            match fullname, email, password with
            | some fn, some em, some pw =>
                let user : UserRec :=
                  { id := nextId, username := toLowerCase un, email := em,
                    fullname := fn, password := hashPassword pw,
                    refreshToken := none, avatar := avatarUrl,
                    coverImage := coverImageUrl.getD "" }
                (db ++ [user], .ok user.toSanitizedDoc)
            | _, _, _ =>
                (db, .error ⟨500, "User validation failed"⟩)

/-- JS falsiness of an optional string value: `undefined` (`none`) and the
empty string are falsy, every other string is truthy.  The login guard
`if (!username && !email)` tests exactly this. -/
def isFalsyStr (field : Option String) : Bool :=
  match field with
  | none => true
  | some s => s == ""

/-- The response of `loginUser`: the sanitized user document, the two
tokens of the JSON body and the two cookies. -/
structure LoginRes where
  userDoc : Doc
  accessToken : Token
  refreshToken : Token
  cookieAccessToken : Token
  cookieRefreshToken : Token
deriving DecidableEq, Repr

/-- `loginUser`: require at least one JS-truthy identifier
(`if (!username && !email)` throws 400), find the user by
username-or-email, check the password, generate and persist the token pair,
re-read the user without `password`/`refreshToken`, and answer with the
tokens both in cookies and in the body. -/
def loginUser (db : DB) (email username password : Option String)
    (now : Nat) : DB × Except ApiError LoginRes :=
  if isFalsyStr username && isFalsyStr email then
    (db, .error ⟨400, "username or email is required"⟩)
  else
    match findOneByUsernameOrEmail db username email with
    | none => (db, .error ⟨404, "User not found"⟩)
    | some user =>
        if ¬ isPasswordCorrect password user.password then
          (db, .error ⟨404, "Password is not correct"⟩)
        else
          match generateAccessAndRefreshToken db user.id now with
          | (db1, .error e) => (db1, .error e)
          | (db1, .ok (accessToken, refreshToken)) =>
              let loggedInUser := (findById db1 user.id).getD user
              (db1, .ok { userDoc := loggedInUser.toSanitizedDoc,
                          accessToken := accessToken,
                          refreshToken := refreshToken,
                          cookieAccessToken := accessToken,
                          cookieRefreshToken := refreshToken })

/-- Mongoose semantics of the update document
`{$set: {refreshToken: undefined}, new: true}` that `logoutUser` sends:
keys whose value is the JS `undefined` are stripped from an update before
it is applied, and `new` is not a schema path (it belongs in the separate
options argument), so it is dropped by strict mode.  The net update is
empty: the stored `refreshToken` is left unchanged. -/
def applyLogoutUpdate (stored : Option Token) : Option Token :=
  stored

/-- The response of `logoutUser`: the names of the cookies it clears. -/
structure LogoutRes where
  clearedCookies : List String
deriving DecidableEq, Repr

/-- `logoutUser`: send the `{$set: {refreshToken: undefined}}` update for
the authenticated user, then clear both token cookies and answer 200. -/
def logoutUser (db : DB) (userId : String) : DB × Except ApiError LogoutRes :=
  (updateUser db userId
     (fun u => { u with refreshToken := applyLogoutUpdate u.refreshToken }),
   .ok { clearedCookies := ["refreshToken", "accessToken"] })

/-- `updateAvatar`: require an uploaded file, upload it to the Media Host
(the resulting URL is passed in; a falsy URL is the upload-failure case),
write the new URL with `findByIdAndUpdate(..., {new: true})` and answer
with the document that call returns — no `.select`, so the full document,
`password` and `refreshToken` included (`none` when no user matched). -/
def updateAvatar (db : DB) (userId : String) (filePath : Option String)
    (uploadedUrl : String) : DB × Except ApiError (Option Doc) :=
  match filePath with
  | none => (db, .error ⟨400, "Avatar file not found"⟩)
  | some _ =>
      if uploadedUrl == "" then
        (db, .error ⟨400, "Error while uploading avatar"⟩)
      else
        let db1 := updateUser db userId (fun u => { u with avatar := uploadedUrl })
        (db1, .ok ((findById db1 userId).map UserRec.toDoc))

/-- `updateCoverImage`: same shape as `updateAvatar`, writing `coverImage`;
likewise returns the full document without a `.select`. -/
def updateCoverImage (db : DB) (userId : String) (filePath : Option String)
    (uploadedUrl : String) : DB × Except ApiError (Option Doc) :=
  match filePath with
  | none => (db, .error ⟨400, "Cover image file not found"⟩)
  | some _ =>
      if uploadedUrl == "" then
        (db, .error ⟨400, "Error while uploading cover image"⟩)
      else
        let db1 := updateUser db userId (fun u => { u with coverImage := uploadedUrl })
        (db1, .ok ((findById db1 userId).map UserRec.toDoc))

/-! ## A concrete store used by witnesses and counterexamples -/

/-- A refresh token issued to user `u1` at time 0. -/
def aliceTok : Token := generateRefreshToken "u1" 0

/-- A registered user holding `aliceTok` as her current refresh token. -/
def alice : UserRec :=
  { id := "u1", username := "alice", email := "alice@x.com",
    fullname := "Alice A", password := hashPassword "secret123",
    refreshToken := some aliceTok, avatar := "http://img/a.png",
    coverImage := "" }

/-- A one-user credential store. -/
def db0 : DB := [alice]

/-- A correctly signed, unexpired refresh token for `u1` that is not the
stored one (issued at a different instant). -/
def staleTok : Token := generateRefreshToken "u1" 1

/-- A token with a valid payload but signed with the wrong secret. -/
def badSigTok : Token :=
  { sub := "u1", iat := 0, exp := 600, sig := ACCESS_TOKEN_SECRET }

/-! ## Character lowercasing lemmas -/

/-- `Char.ofNat` of a valid code point decodes back to it. -/
theorem toNat_ofNat_valid (n : Nat) (h : n.isValidChar) :
    (Char.ofNat n).toNat = n := by
  simp [Char.ofNat, h, Char.ofNatAux, Char.toNat, UInt32.toNat,
    BitVec.toNat_ofNatLt]

/-- Lowercasing a character twice is the same as lowercasing it once. -/
theorem char_toLower_idem (c : Char) : c.toLower.toLower = c.toLower := by
  simp only [Char.toLower]
  by_cases h : c.toNat ≥ 65 ∧ c.toNat ≤ 90
  · rw [if_pos h]
    have ht : (Char.ofNat (c.toNat + 32)).toNat = c.toNat + 32 :=
      toNat_ofNat_valid _ (by left; omega)
    rw [if_neg (by omega)]
  · rw [if_neg h, if_neg h]

/-- Lowercasing a string is idempotent: a lowercased username is already
lowercase. -/
theorem toLowerCase_idem (s : String) :
    toLowerCase (toLowerCase s) = toLowerCase s := by
  unfold toLowerCase
  apply congrArg String.mk
  simp only [List.map_map]
  exact List.map_congr_left (fun c _ => char_toLower_idem c)

/-! ## Store lemmas -/

/-- Looking a document up after an id-preserving single-document update
returns the updated document. -/
theorem findById_updateUser (db : DB) (userId : String) (f : UserRec → UserRec)
    (hid : ∀ u, (f u).id = u.id) :
    findById (updateUser db userId f) userId = (findById db userId).map f := by
  induction db with
  | nil => rfl
  | cons a l ih =>
      by_cases h : a.id = userId
      · have hfa : (f a).id = userId := by rw [hid a, h]
        simp [findById, updateUser, List.find?_cons, h, hfa] at *
      · simp only [findById, updateUser, List.map_cons] at *
        rw [if_neg (by simp [h])]
        rw [List.find?_cons_of_neg _ (by simp [h]),
            List.find?_cons_of_neg _ (by simp [h])]
        exact ih

/-- A successful refresh: when the incoming token verifies under the
refresh secret, its subject resolves to a stored user and it equals that
user's stored token, `refreshAccessToken` rotates the stored token to a
freshly issued one and returns the new access token — with `none`
(`undefined`) in the response's refresh-token slots. -/
theorem refreshAccessToken_ok (db : DB) (u : UserRec) (t : Token) (now : Nat)
    (hfind : findById db t.sub = some u)
    (hstored : u.refreshToken = some t)
    (hsig : t.sig = REFRESH_TOKEN_SECRET)
    (hexp : now < t.exp) :
    refreshAccessToken db (some t) now =
      (updateUser db u.id
         (fun v => { v with refreshToken := some (generateRefreshToken u.id now) }),
       .ok { accessToken := some (generateAccessToken u.id now),
             refreshToken := none,
             cookieAccessToken := some (generateAccessToken u.id now),
             cookieRefreshToken := none }) := by
  have hverify : jwtVerify t REFRESH_TOKEN_SECRET now = .ok t := by
    simp [jwtVerify, hsig, Nat.not_le.mpr hexp]
  have hfind2 : findById db u.id = some u := by
    have : u.id = t.sub := by
      have := List.find?_some hfind
      simpa using this
    rw [this]; exact hfind
  simp only [refreshAccessToken, hverify, hfind, hstored]
  rw [if_neg (by simp)]
  simp [generateAccessAndRefreshToken, hfind2]

/-- A refresh whose well-signed, unexpired token does not match the stored
one fails with the 401 mismatch error and leaves the store unchanged. -/
theorem refreshAccessToken_mismatch (db : DB) (u : UserRec) (t : Token) (now : Nat)
    (hfind : findById db t.sub = some u)
    (hstored : u.refreshToken ≠ some t)
    (hsig : t.sig = REFRESH_TOKEN_SECRET)
    (hexp : now < t.exp) :
    refreshAccessToken db (some t) now =
      (db, .error ⟨401, "Refresh token is expired or does not match"⟩) := by
  have hverify : jwtVerify t REFRESH_TOKEN_SECRET now = .ok t := by
    simp [jwtVerify, hsig, Nat.not_le.mpr hexp]
  simp only [refreshAccessToken, hverify, hfind]
  rw [if_pos hstored]

/-- The sanitized projection of any user record contains neither a
`password` nor a `refreshToken` field. -/
theorem toSanitizedDoc_no_credential_fields (v : UserRec) :
    v.toSanitizedDoc.all
      (fun kv => !(kv.1 == "password" || kv.1 == "refreshToken")) = true := by
  cases h : v.refreshToken <;>
    simp [UserRec.toSanitizedDoc, selectWithout, UserRec.toDoc, h]

/-! ## C1 — refresh-token rotation invalidates the superseded token -/

/-- C1: after a successful `Refresh` with the stored token `t` rotates the
user's stored `currentRefreshToken` to a freshly issued one, a second
`Refresh` presenting the same original `t` (still well signed and
unexpired) fails with the 401 `ApiError` — `Refresh` succeeds only when
the presented token exactly equals the stored one. -/
theorem refresh_rotation_rejects_superseded_token
    (db : DB) (u : UserRec) (t : Token) (now1 now2 : Nat)
    (hfind : findById db t.sub = some u)
    (hstored : u.refreshToken = some t)
    (hsig : t.sig = REFRESH_TOKEN_SECRET)
    (hexp1 : now1 < t.exp)
    (hexp2 : now2 < t.exp)
    (hiat : t.iat ≠ now1) :
    ∃ db1 res, refreshAccessToken db (some t) now1 = (db1, .ok res) ∧
      (refreshAccessToken db1 (some t) now2).2 =
        .error ⟨401, "Refresh token is expired or does not match"⟩ := by
  have hid : u.id = t.sub := by
    have := List.find?_some hfind
    simpa using this
  refine ⟨_, _, refreshAccessToken_ok db u t now1 hfind hstored hsig hexp1, ?_⟩
  have hfind1 :
      findById
        (updateUser db u.id
          (fun v => { v with refreshToken := some (generateRefreshToken u.id now1) }))
        t.sub =
      some { u with refreshToken := some (generateRefreshToken u.id now1) } := by
    rw [← hid] at hfind ⊢
    rw [findById_updateUser db u.id
          (fun v => { v with refreshToken := some (generateRefreshToken u.id now1) })
          (fun v => rfl), hfind]
    rfl
  have hne :
      ({ u with refreshToken := some (generateRefreshToken u.id now1)} : UserRec).refreshToken
        ≠ some t := by
    intro hcontra
    have : now1 = t.iat :=
      congrArg Token.iat (Option.some.inj hcontra)
    exact hiat this.symm
  rw [refreshAccessToken_mismatch _ _ t now2 hfind1 hne hsig hexp2]

/-- Witness for C1 at a concrete store: a refresh with `aliceTok` at time 5
succeeds; replaying `aliceTok` at time 9 is rejected with the 401 error. -/
theorem refresh_rotation_rejects_superseded_token_witness :
    ∃ db1 res, refreshAccessToken db0 (some aliceTok) 5 = (db1, .ok res) ∧
      (refreshAccessToken db1 (some aliceTok) 9).2 =
        .error ⟨401, "Refresh token is expired or does not match"⟩ :=
  refresh_rotation_rejects_superseded_token db0 alice aliceTok 5 9
    (by decide) (by decide) (by decide) (by decide) (by decide) (by decide)

/-! ## C2 — logout does not actually clear the stored refresh token -/

/-- C2 (code bug): `logoutUser` sends `{$set: {refreshToken: undefined}}`,
which Mongoose strips, so the stored token is not cleared — the logout
answers 200, the store is unchanged, and a `Refresh` with the
pre-logout token still succeeds instead of failing with a 401. -/
theorem logout_leaves_refresh_token_usable :
    logoutUser db0 "u1" =
      (db0, .ok { clearedCookies := ["refreshToken", "accessToken"] }) ∧
    (refreshAccessToken (logoutUser db0 "u1").1 (some aliceTok) 5).2 =
      .ok { accessToken := some (generateAccessToken "u1" 5),
            refreshToken := none,
            cookieAccessToken := some (generateAccessToken "u1" 5),
            cookieRefreshToken := none } := by
  exact ⟨by decide, by decide⟩

/-! ## C3 — avatar/cover-image updates return the unsanitized document -/

/-- C3 (code bug): `updateAvatar` and `updateCoverImage` answer with the
document returned by `findByIdAndUpdate` without a
`.select("-password -refreshToken")`, so the response contains both the
`password` hash and the `refreshToken` fields. -/
theorem update_results_contain_credentials :
    (updateAvatar db0 "u1" (some "tmp/a.png") "http://img/a2.png").2 =
      .ok (some (UserRec.toDoc { alice with avatar := "http://img/a2.png" })) ∧
    (UserRec.toDoc { alice with avatar := "http://img/a2.png" }).any
      (fun kv => kv.1 == "password") = true ∧
    (UserRec.toDoc { alice with avatar := "http://img/a2.png" }).any
      (fun kv => kv.1 == "refreshToken") = true ∧
    (updateCoverImage db0 "u1" (some "tmp/c.png") "http://img/c.png").2 =
      .ok (some (UserRec.toDoc { alice with coverImage := "http://img/c.png" })) := by
  exact ⟨by decide, by decide, by decide, by decide⟩

/-! ## C4 — refresh answers with an `undefined` refresh token -/

/-- C4 (code bug): a successful `refreshAccessToken` destructures
`newRefreshToken` from a function whose result field is named
`refreshToken`, so the body and the cookie carry `undefined` (`none`)
while the store now holds the genuinely new token. -/
theorem refresh_response_refresh_token_is_undefined :
    (refreshAccessToken db0 (some aliceTok) 5).2 =
      .ok { accessToken := some (generateAccessToken "u1" 5),
            refreshToken := none,
            cookieAccessToken := some (generateAccessToken "u1" 5),
            cookieRefreshToken := none } ∧
    findById (refreshAccessToken db0 (some aliceTok) 5).1 "u1" =
      some { alice with refreshToken := some (generateRefreshToken "u1" 5) } ∧
    some (generateRefreshToken "u1" 5) ≠ (none : Option Token) := by
  exact ⟨by decide, by decide, by decide⟩

/-- `generateAccessAndRefreshToken` on an existing user: issues the pair
for `userId` and persists the refresh token on that user's record. -/
theorem generateTokens_ok (db : DB) (userId : String) (now : Nat)
    (w : UserRec) (hw : findById db userId = some w) :
    generateAccessAndRefreshToken db userId now =
      (updateUser db userId
         (fun v => { v with refreshToken := some (generateRefreshToken userId now) }),
       .ok (generateAccessToken userId now, generateRefreshToken userId now)) := by
  simp [generateAccessAndRefreshToken, hw]

/-! ## C5 — login error cases -/

/-- C5 (counterexample): a wrong password makes `loginUser` fail with the
404 `ApiError` "Password is not correct", not a 401 unauthorized error. -/
theorem login_bad_password_status_counterexample :
    (loginUser db0 none (some "alice") (some "wrongpass") 5).2 =
      .error ⟨404, "Password is not correct"⟩ ∧
    (⟨404, "Password is not correct"⟩ : ApiError).statusCode ≠ 401 :=
  ⟨by decide, by decide⟩

/-- C5 (amended): when both identifiers are JS-falsy (absent or empty)
`loginUser` fails with the 400 "username or email is required" error;
otherwise it fails with the 404 "User not found" error when no user
matches the identifier, fails with the 404 (not 401) "Password is not
correct" error when the password does not verify, and on success returns
the freshly issued access and refresh tokens together with a user document
stripped of `password` and `refreshToken`. -/
theorem login_error_and_success_cases (db : DB)
    (email username password : Option String) (now : Nat) :
    ((isFalsyStr username && isFalsyStr email) = true →
      (loginUser db email username password now).2 =
        .error ⟨400, "username or email is required"⟩)
    ∧ ((isFalsyStr username && isFalsyStr email) = false →
      findOneByUsernameOrEmail db username email = none →
      (loginUser db email username password now).2 =
        .error ⟨404, "User not found"⟩)
    ∧ (∀ u, (isFalsyStr username && isFalsyStr email) = false →
        findOneByUsernameOrEmail db username email = some u →
        isPasswordCorrect password u.password = false →
        (loginUser db email username password now).2 =
          .error ⟨404, "Password is not correct"⟩)
    ∧ (∀ u, (isFalsyStr username && isFalsyStr email) = false →
        findOneByUsernameOrEmail db username email = some u →
        isPasswordCorrect password u.password = true →
        ∃ res, (loginUser db email username password now).2 = .ok res ∧
          res.accessToken = generateAccessToken u.id now ∧
          res.refreshToken = generateRefreshToken u.id now ∧
          res.userDoc.all
            (fun kv => !(kv.1 == "password" || kv.1 == "refreshToken")) = true) := by
  refine ⟨?_, ?_, ?_, ?_⟩
  · intro hguard
    simp [loginUser, hguard]
  · intro hguard hnone
    simp [loginUser, hguard, hnone]
  · intro u hguard hfound hpw
    simp [loginUser, hguard, hfound, hpw]
  · intro u hguard hfound hpw
    have hmem : u ∈ db := List.mem_of_find?_eq_some hfound
    have hsome : (findById db u.id).isSome := by
      rw [findById]
      exact List.find?_isSome.mpr ⟨u, hmem, by simp⟩
    obtain ⟨w, hw⟩ := Option.isSome_iff_exists.mp hsome
    refine ⟨{ userDoc :=
                ((findById
                    (updateUser db u.id
                      (fun v => { v with refreshToken := some (generateRefreshToken u.id now) }))
                    u.id).getD u).toSanitizedDoc,
              accessToken := generateAccessToken u.id now,
              refreshToken := generateRefreshToken u.id now,
              cookieAccessToken := generateAccessToken u.id now,
              cookieRefreshToken := generateRefreshToken u.id now },
            ?_, rfl, rfl, toSanitizedDoc_no_credential_fields _⟩
    simp only [loginUser, hguard, Bool.false_eq_true, if_false, hfound]
    rw [if_neg (by simp [hpw])]
    rw [generateTokens_ok db u.id now w hw]

/-- Witness for C5 at the concrete store: no identifier at all, an unknown
identifier pair, a wrong password, and a successful login. -/
theorem login_error_and_success_cases_witness :
    (loginUser db0 (some "") none (some "x") 3).2 =
      .error ⟨400, "username or email is required"⟩ ∧
    (loginUser db0 (some "nobody@x.com") (some "nobody") (some "x") 3).2 =
      .error ⟨404, "User not found"⟩ ∧
    (loginUser db0 none (some "alice") (some "wrong") 3).2 =
      .error ⟨404, "Password is not correct"⟩ ∧
    ∃ res, (loginUser db0 none (some "alice") (some "secret123") 3).2 = .ok res ∧
      res.accessToken = generateAccessToken alice.id 3 ∧
      res.refreshToken = generateRefreshToken alice.id 3 ∧
      res.userDoc.all
        (fun kv => !(kv.1 == "password" || kv.1 == "refreshToken")) = true :=
  ⟨(login_error_and_success_cases db0 (some "") none (some "x") 3).1
      (by decide),
   (login_error_and_success_cases db0 (some "nobody@x.com") (some "nobody")
      (some "x") 3).2.1 (by decide) (by decide),
   (login_error_and_success_cases db0 none (some "alice") (some "wrong") 3).2.2.1
      alice (by decide) (by decide) (by decide),
   (login_error_and_success_cases db0 none (some "alice") (some "secret123")
      3).2.2.2 alice (by decide) (by decide) (by decide)⟩

/-! ## C6 — refresh failures share a status but not a message -/

/-- C6 (counterexample): the three refresh precondition violations all
fail, but with three pairwise different `ApiError` values — the catch
block re-throws `ApiError(401, error.message)`, so the underlying error's
message reaches the caller and identifies the violation. -/
theorem refresh_failures_distinguishable_counterexample :
    (refreshAccessToken db0 (some badSigTok) 5).2 =
      .error ⟨401, "invalid signature"⟩ ∧
    (refreshAccessToken db0 (some aliceTok) 600).2 =
      .error ⟨401, "jwt expired"⟩ ∧
    (refreshAccessToken db0 (some staleTok) 5).2 =
      .error ⟨401, "Refresh token is expired or does not match"⟩ ∧
    (⟨401, "invalid signature"⟩ : ApiError) ≠ ⟨401, "jwt expired"⟩ ∧
    (⟨401, "jwt expired"⟩ : ApiError) ≠
      ⟨401, "Refresh token is expired or does not match"⟩ ∧
    (⟨401, "invalid signature"⟩ : ApiError) ≠
      ⟨401, "Refresh token is expired or does not match"⟩ :=
  ⟨by decide, by decide, by decide, by decide, by decide, by decide⟩

/-- C6 (amended): every failure of `refreshAccessToken` carries status
code 401, but the messages of the mismatch, expiry and invalid-signature
failures differ, so the caller can tell the violations apart. -/
theorem refresh_failures_all_401_but_messages_differ :
    (∀ (db : DB) (incoming : Option Token) (now : Nat) (e : ApiError),
      (refreshAccessToken db incoming now).2 = .error e → e.statusCode = 401)
    ∧ (refreshAccessToken db0 (some badSigTok) 5).2 =
        .error ⟨401, "invalid signature"⟩
    ∧ (refreshAccessToken db0 (some aliceTok) 600).2 =
        .error ⟨401, "jwt expired"⟩
    ∧ (refreshAccessToken db0 (some staleTok) 5).2 =
        .error ⟨401, "Refresh token is expired or does not match"⟩
    ∧ ("invalid signature" ≠ "jwt expired" ∧
       "jwt expired" ≠ "Refresh token is expired or does not match" ∧
       "invalid signature" ≠ "Refresh token is expired or does not match") := by
  refine ⟨?_, by decide, by decide, by decide, by decide, by decide, by decide⟩
  intro db incoming now e h
  unfold refreshAccessToken at h
  repeat' split at h
  all_goals first
    | (injection h with h2; rw [← h2])
    | injection h

/-- Witness for C6: the universally quantified 401 conjunct applied to the
missing-token request. -/
theorem refresh_failures_all_401_witness :
    (⟨401, "Unauthorized request"⟩ : ApiError).statusCode = 401 :=
  refresh_failures_all_401_but_messages_differ.1 db0 none 0
    ⟨401, "Unauthorized request"⟩ (by decide)

/-! ## C7 — duplicate usernames conflict regardless of case -/

/-- C7: when the store already holds a user whose username equals the
requested one up to letter case, `registerUser` (with fields passing the
emptiness check) fails with the 409 conflict error and leaves the store
unchanged — no record is created.  The case-insensitive username match is
the store contract modelled from the spec. -/
theorem register_duplicate_username_any_case_conflict (db : DB)
    (fullname email password : Option String) (un : String)
    (avatarUrl : String) (coverImageUrl : Option String) (nextId : String)
    (v : UserRec) (hv : v ∈ db)
    (hcase : toLowerCase v.username = toLowerCase un)
    (hval : ([fullname, email, some un, password].any trimIsEmptyString) = false) :
    registerUser db fullname email (some un) password avatarUrl coverImageUrl
      nextId = (db, .error ⟨409, "User already exists"⟩) := by
  have hne : findOneByUsernameOrEmail db (some un) email ≠ none := by
    intro hnone
    have := List.find?_eq_none.mp hnone v hv
    exact this (by simp [matchesUsernameOrEmail, hcase])
  cases hfo : findOneByUsernameOrEmail db (some un) email with
  | none => exact absurd hfo hne
  | some w => simp [registerUser, hval, hfo]

/-- Witness for C7: registering `ALICE` against a store already holding
`alice` conflicts. -/
theorem register_duplicate_username_any_case_conflict_witness :
    registerUser db0 (some "Alice Two") (some "new@x.com") (some "ALICE")
      (some "pw2") "http://img/n.png" none "u9" =
      (db0, .error ⟨409, "User already exists"⟩) :=
  register_duplicate_username_any_case_conflict db0 (some "Alice Two")
    (some "new@x.com") (some "pw2") "ALICE" "http://img/n.png" none "u9"
    alice (by decide) (by decide) (by decide)

/-! ## C8 — registration validation catches blank but not missing fields -/

/-- C8 (counterexample): a request with no `username` at all passes the
`field?.trim() === ""` check and fails later.  Against a non-empty store
the duplicate check's `{username: undefined}` branch — stripped to the
empty filter — matches the first stored user, so the request fails with
the 409 conflict error; against an empty store it reaches
`username.toLowerCase()`, which throws and is surfaced by the error
middleware as a 500.  Neither is the claimed 400 validation error. -/
theorem register_missing_field_counterexample :
    registerUser db0 (some "Bob B") (some "b@x.com") none (some "pw")
      "http://img/b.png" none "u2" =
      (db0, .error ⟨409, "User already exists"⟩) ∧
    (⟨409, "User already exists"⟩ : ApiError).statusCode ≠ 400 ∧
    registerUser [] (some "Bob B") (some "b@x.com") none (some "pw")
      "http://img/b.png" none "u2" =
      ([], .error ⟨500, "Cannot read properties of undefined"⟩) ∧
    (⟨500, "Cannot read properties of undefined"⟩ : ApiError).statusCode ≠ 400 :=
  ⟨by decide, by decide, by decide, by decide⟩

/-- C8 (amended): `registerUser` fails with the 400 "All fields are
required" validation error — creating no record — whenever some required
field is present but trims to the empty string; a field that is absent
from the request is not caught by this check, and such a request instead
fails at a later step (the 409 duplicate check against a non-empty store,
a 500 internal error against an empty one). -/
theorem register_blank_field_validation (db : DB)
    (fullname email username password : Option String)
    (avatarUrl : String) (coverImageUrl : Option String) (nextId : String)
    (hblank : [fullname, email, username, password].any trimIsEmptyString = true) :
    registerUser db fullname email username password avatarUrl coverImageUrl
      nextId = (db, .error ⟨400, "All fields are required"⟩) := by
  simp [registerUser, hblank]

/-- Witness for C8: a whitespace-only password is rejected with 400 and
the store stays as it was. -/
theorem register_blank_field_validation_witness :
    registerUser db0 (some "Bob B") (some "b@x.com") (some "bob") (some "   ")
      "http://img/b.png" none "u2" =
      (db0, .error ⟨400, "All fields are required"⟩) :=
  register_blank_field_validation db0 (some "Bob B") (some "b@x.com")
    (some "bob") (some "   ") "http://img/b.png" none "u2" (by decide)

/-! ## C9 — the login response's refresh token is the stored one -/

/-- C9: after every successful login, the refresh token returned in the
response equals the value stored at that moment on the user's record in
the credential store. -/
theorem login_refresh_token_matches_store (db : DB)
    (email username password : Option String) (now : Nat) (u : UserRec)
    (hguard : (isFalsyStr username && isFalsyStr email) = false)
    (hfound : findOneByUsernameOrEmail db username email = some u)
    (hpw : isPasswordCorrect password u.password = true) :
    ∃ db1 res, loginUser db email username password now = (db1, .ok res) ∧
      ∃ v, findById db1 u.id = some v ∧
        v.refreshToken = some res.refreshToken := by
  have hmem : u ∈ db := List.mem_of_find?_eq_some hfound
  have hsome : (findById db u.id).isSome := by
    rw [findById]
    exact List.find?_isSome.mpr ⟨u, hmem, by simp⟩
  obtain ⟨w, hw⟩ := Option.isSome_iff_exists.mp hsome
  refine ⟨updateUser db u.id
            (fun v => { v with refreshToken := some (generateRefreshToken u.id now) }),
          { userDoc :=
              ((findById
                  (updateUser db u.id
                    (fun v => { v with refreshToken := some (generateRefreshToken u.id now) }))
                  u.id).getD u).toSanitizedDoc,
            accessToken := generateAccessToken u.id now,
            refreshToken := generateRefreshToken u.id now,
            cookieAccessToken := generateAccessToken u.id now,
            cookieRefreshToken := generateRefreshToken u.id now },
          ?_, ?_⟩
  · simp only [loginUser, hguard, Bool.false_eq_true, if_false, hfound]
    rw [if_neg (by simp [hpw])]
    rw [generateTokens_ok db u.id now w hw]
  · refine ⟨{ w with refreshToken := some (generateRefreshToken u.id now) }, ?_, rfl⟩
    rw [findById_updateUser db u.id
          (fun v => { v with refreshToken := some (generateRefreshToken u.id now) })
          (fun v => rfl), hw]
    rfl

/-- Witness for C9: after `alice` logs in at time 7, the stored token is
exactly the one in the response. -/
theorem login_refresh_token_matches_store_witness :
    ∃ db1 res, loginUser db0 none (some "alice") (some "secret123") 7 =
        (db1, .ok res) ∧
      ∃ v, findById db1 alice.id = some v ∧
        v.refreshToken = some res.refreshToken :=
  login_refresh_token_matches_store db0 none (some "alice") (some "secret123")
    7 alice (by decide) (by decide) (by decide)

/-! ## C10 — registered usernames are persisted lowercased -/

/-- C10: every record `registerUser` creates stores
`username.toLowerCase()`: the persisted username is the lowercasing of the
supplied one, whatever its case, and is therefore itself lowercase
(lowercasing it again changes nothing). -/
theorem register_stores_lowercased_username (db : DB)
    (fn em un pw : String) (avatarUrl : String) (coverImageUrl : Option String)
    (nextId : String)
    (hval : ([some fn, some em, some un, some pw].any trimIsEmptyString) = false)
    (hdup : findOneByUsernameOrEmail db (some un) (some em) = none) :
    ∃ newUser : UserRec,
      registerUser db (some fn) (some em) (some un) (some pw) avatarUrl
          coverImageUrl nextId =
        (db ++ [newUser], .ok newUser.toSanitizedDoc) ∧
      newUser.username = toLowerCase un ∧
      toLowerCase newUser.username = newUser.username := by
  refine ⟨{ id := nextId, username := toLowerCase un, email := em,
            fullname := fn, password := hashPassword pw, refreshToken := none,
            avatar := avatarUrl, coverImage := coverImageUrl.getD "" },
          ?_, rfl, toLowerCase_idem un⟩
  simp [registerUser, hval, hdup]

/-- Witness for C10: registering username `BoB` persists it as `bob`. -/
theorem register_stores_lowercased_username_witness :
    ∃ newUser : UserRec,
      registerUser db0 (some "Bob B") (some "b@x.com") (some "BoB")
          (some "pw") "http://img/b.png" none "u2" =
        (db0 ++ [newUser], .ok newUser.toSanitizedDoc) ∧
      newUser.username = toLowerCase "BoB" ∧
      toLowerCase newUser.username = newUser.username :=
  register_stores_lowercased_username db0 "Bob B" "b@x.com" "BoB" "pw"
    "http://img/b.png" none "u2" (by decide) (by decide)

end Backend
